import Mathlib

/-!
Verification development for the IFA proposal-generator repository.

The TypeScript sources are shallowly embedded: every external AI call is an
injected input (its outcome, or the outcome of each retry attempt, is a
parameter), JavaScript numbers are modelled as rationals, optional fields as
`Option`, and thrown exceptions as `Except`.  The repository contains two
variants of the service module: `src/services/geminiService.ts` (embedded in
namespace `GeminiService`) and the unnamed sibling `src/unnamed/part_001`
(embedded in namespace `GeminiService2`).
-/

set_option maxHeartbeats 1000000

/-! ## JavaScript string primitives -/

/-- Is the first list a leading segment of the second (used to model
`String.prototype.startsWith` on the character lists). -/
def charsHavePre : List Char → List Char → Bool
  | [], _ => true
  | _ :: _, [] => false
  | a :: as, b :: bs => a == b && charsHavePre as bs

/-- Does the first list contain the second as a contiguous segment
(used to model `String.prototype.includes`). -/
def charsContain : List Char → List Char → Bool
  | [], sub => charsHavePre sub []
  | s@(_ :: rest), sub => charsHavePre sub s || charsContain rest sub

/-- JavaScript `s.includes(sub)`. -/
def jsIncludes (s sub : String) : Bool := charsContain s.data sub.data

/-- JavaScript `s.startsWith(p)`. -/
def jsStartsWith (s p : String) : Bool := charsHavePre p.data s.data

/-- White space skipped by JavaScript `parseFloat`. -/
def jsWhitespace (c : Char) : Bool :=
  c == ' ' || c == '\t' || c == '\n' || c == '\r' ||
  c == '\x0b' || c == '\x0c' || c == ' ' || c == '　'

def isAsciiDigit (c : Char) : Bool := '0' ≤ c && c ≤ '9'

/-- Numeric value of a list of ascii digits read left to right. -/
def digitsToNat (ds : List Char) : Nat :=
  ds.foldl (fun a c => a * 10 + (c.toNat - 48)) 0

/-- Split off the leading run of ascii digits. -/
def takeDigits : List Char → (List Char × List Char)
  | [] => ([], [])
  | c :: cs =>
      if isAsciiDigit c then
        let (ds, r) := takeDigits cs
        (c :: ds, r)
      else ([], c :: cs)

/-- Parse an unsigned decimal mantissa (`123`, `123.45`, `.45`, `123.`);
returns its value and the unconsumed remainder, or `none` when no digit is
present. -/
def parseMantissa (cs : List Char) : Option (Rat × List Char) :=
  let (ds, r1) := takeDigits cs
  match r1 with
  | '.' :: r2 =>
      let (fs, r3) := takeDigits r2
      if ds.isEmpty && fs.isEmpty then none
      else some ((digitsToNat ds : Rat) + (digitsToNat fs : Rat) / ((10 : Rat) ^ fs.length), r3)
  | _ => if ds.isEmpty then none else some ((digitsToNat ds : Rat), r1)

/-- Parse an optional exponent suffix (`e5`, `E-3`); the suffix is consumed
only when at least one digit follows, exactly as in JavaScript. -/
def applyExponent (v : Rat) (cs : List Char) : Rat :=
  match cs with
  | 'e' :: rest | 'E' :: rest =>
      match rest with
      | '-' :: r2 =>
          let (ds, _) := takeDigits r2
          if ds.isEmpty then v else v / ((10 : Rat) ^ digitsToNat ds)
      | '+' :: r2 =>
          let (ds, _) := takeDigits r2
          if ds.isEmpty then v else v * ((10 : Rat) ^ digitsToNat ds)
      | _ =>
          let (ds, _) := takeDigits rest
          if ds.isEmpty then v else v * ((10 : Rat) ^ digitsToNat ds)
  | _ => v

/-- JavaScript `parseFloat`: skip leading white space, read an optional sign
and the longest decimal-literal front segment, ignore everything after it;
`none` models `NaN`.  (`Infinity` literals are not representable in `ℚ` and
are not modelled.) -/
def jsParseFloat (s : String) : Option Rat :=
  let cs := s.data.dropWhile jsWhitespace
  match cs with
  | '-' :: rest => (parseMantissa rest).map fun (v, r) => -(applyExponent v r)
  | '+' :: rest => (parseMantissa rest).map fun (v, r) => applyExponent v r
  | _ => (parseMantissa cs).map fun (v, r) => applyExponent v r

example : jsParseFloat "1234" = some 1234 := by decide
example : jsParseFloat "1，234" = some 1 := by decide
example : jsParseFloat "-" = none := by decide
example : jsParseFloat "" = none := by decide
example : jsIncludes "売却: トヨタ" "売却" = true := by decide
example : jsIncludes "現金" "売却" = false := by decide
example : jsStartsWith "-500" "-" = true := by decide

/-! ## Data model (`src/types.ts`) -/

/-- One holding or proposed position (`Asset` in `types.ts`).  Fields the
embedded logic never reads are omitted; optional fields are `Option`. -/
structure Asset where
  id : String
  name : String
  code : Option String := none
  type : String
  amount : Option Rat := none
  quantity : Option Rat := none
  currentPrice : Option Rat := none
  profitLoss : Option Rat := none
  currency : String
  confidence : Option Rat := none
  description : Option String := none
  deriving Repr, DecidableEq

/-- One `tableData` row as produced by the report schema. -/
structure TableRow where
  label : String
  metric : Option String := none
  value1 : Option String := none
  value2 : Option String := none
  explanation : Option String := none
  deriving Repr, DecidableEq

/-- One slide (`SlideContent` in `types.ts`); the `type` tag is kept as the
open string of the source. -/
structure SlideContent where
  id : String
  type : String
  title : String
  subtitle : Option String := none
  bodyText : Option String := none
  bulletPoints : Option (List String) := none
  tableData : Option (List TableRow) := none
  aiAnalysis : Option String := none
  deriving Repr, DecidableEq

/-- The generated artifact (`PresentationData` in `types.ts`). -/
structure PresentationData where
  title : String
  clientName : String
  slides : List SlideContent
  deriving Repr, DecidableEq

/-- The client record (`ClientProfile` in `types.ts`). -/
structure ClientProfile where
  age : Rat
  gender : String
  region : String
  riskTolerance : String
  investmentHorizon : String
  goals : String
  familyStructure : String
  currentHoldings : List Asset
  deriving Repr, DecidableEq

/-- Proposal settings: the two record maps are embedded as functions from the
asset-type key, `none` modelling an absent key. -/
structure ProposalSettings where
  proposalCounts : String → Option Nat
  proposalDetails : String → Option (List String)

/-! ## External-call outcomes

`generateContent` either throws or resolves to a response object; the only
response fields the sources read are `text` (possibly absent) and the
grounding-chunk URIs. -/

/-- Classification of a thrown error, as tested by `generateWithRetry`. -/
inductive GenError where
  | quota : GenError
  | other : GenError
  deriving Repr, DecidableEq

/-- A resolved `generateContent` response. -/
structure GenResponse where
  text : Option String := none
  groundingUris : List (Option String) := []
  deriving Repr, DecidableEq

/-- `generateWithRetry` (identical in both service variants up to the retry
count): attempt the call; on a quota error with iterations remaining, retry;
on any other error, or on the final iteration, rethrow.  `attempt i` is the
outcome of the `i`-th call.  The value `Except.ok none` models the
`undefined` the JavaScript function returns when its loop runs zero times. -/
def generateWithRetryAux (attempt : Nat → Except GenError GenResponse) :
    Nat → Nat → Except GenError (Option GenResponse)
  | _, 0 => Except.ok none
  | i, fuel + 1 =>
      match attempt i with
      | Except.ok r => Except.ok (some r)
      | Except.error e =>
          if e = GenError.quota ∧ 0 < fuel then
            generateWithRetryAux attempt (i + 1) fuel
          else Except.error e

def generateWithRetry (attempt : Nat → Except GenError GenResponse)
    (retries : Nat) : Except GenError (Option GenResponse) :=
  generateWithRetryAux attempt 0 retries

/-- If every attempt that resolves carries no usable text (absent, empty, or
rejected by `parse`), then whatever `generateWithRetry` returns is either an
error or a response with no usable text. -/
theorem generateWithRetryAux_fail (attempt : Nat → Except GenError GenResponse)
    (P : String → Prop)
    (h : ∀ i r t, attempt i = Except.ok r → r.text = some t → t ≠ "" → P t) :
    ∀ i fuel, (∀ r t, generateWithRetryAux attempt i fuel = Except.ok (some r) →
      r.text = some t → t ≠ "" → P t) := by
  intro i fuel
  induction fuel generalizing i with
  | zero => intro r t hr; simp [generateWithRetryAux] at hr
  | succ n ih =>
      intro r t hr ht hne
      unfold generateWithRetryAux at hr
      split at hr
      · rename_i r0 hatt
        injection hr with hr1
        injection hr1 with hr2
        exact h i r t (by rw [hatt, hr2]) ht hne
      · rename_i e hatt
        split at hr
        · exact ih (i + 1) r t hr ht hne
        · cases hr

/-- Unfolding lemma: one retry iteration whose attempt throws. -/
theorem generateWithRetryAux_succ_error (attempt : Nat → Except GenError GenResponse)
    (i n : Nat) (e : GenError) (he : attempt i = Except.error e) :
    generateWithRetryAux attempt i (n + 1) =
      if e = GenError.quota ∧ 0 < n then generateWithRetryAux attempt (i + 1) n
      else Except.error e := by
  conv_lhs => unfold generateWithRetryAux
  rw [he]

/-- Unfolding lemma: one retry iteration whose attempt resolves. -/
theorem generateWithRetryAux_succ_ok (attempt : Nat → Except GenError GenResponse)
    (i n : Nat) (r : GenResponse) (hr : attempt i = Except.ok r) :
    generateWithRetryAux attempt i (n + 1) = Except.ok (some r) := by
  unfold generateWithRetryAux
  rw [hr]

/-- If every attempt throws, `generateWithRetryAux` with positive fuel ends in
an error. -/
theorem generateWithRetryAux_error (attempt : Nat → Except GenError GenResponse)
    (h : ∀ i, ∃ e, attempt i = Except.error e) :
    ∀ fuel i, 0 < fuel → ∃ e, generateWithRetryAux attempt i fuel = Except.error e := by
  intro fuel
  induction fuel with
  | zero => intro i hi; cases hi
  | succ n ih =>
      intro i _
      obtain ⟨e, he⟩ := h i
      rw [generateWithRetryAux_succ_error attempt i n e he]
      by_cases hq : e = GenError.quota ∧ 0 < n
      · rw [if_pos hq]
        exact ih (i + 1) hq.2
      · rw [if_neg hq]
        exact ⟨e, rfl⟩

/-- JavaScript `a || b` on an optional string: the default replaces both an
absent and an empty value. -/
def jsOrElse (s : Option String) (d : String) : String :=
  match s with
  | none => d
  | some v => if v = "" then d else v

/-! ## `src/services/geminiService.ts` -/

namespace GeminiService

/-- The fixed fallback document (`getMockProposal`). -/
def getMockProposal : PresentationData :=
  { title := "資産運用提案書"
    clientName := "お客様"
    slides := [{ id := "1", type := "Title", title := "資産運用分析レポート",
                 subtitle := some "システムエラーが発生しました" }] }

/-- Outcome of the deep-research interactions block (steps 59–117 of the
source): an exception anywhere in the block, an absent interactions API, a
terminal `failed`/`error` status, or a terminal `completed`/`succeeded`
status carrying the interaction outputs (the `text` of each output, possibly
absent). -/
inductive ResearchOutcome where
  | throws : ResearchOutcome
  | noApi : ResearchOutcome
  | failed : ResearchOutcome
  | completed (outputs : List (Option String)) : ResearchOutcome
  deriving Repr, DecidableEq

/-- The value of `deepResearchReport` after the research block: it is set only
when the interaction completed with a non-empty output list, to the text of
the last output. -/
def deepResearchReport : ResearchOutcome → String
  | ResearchOutcome.completed outputs =>
      match outputs.getLast? with
      | none => ""
      | some t => t.getD ""
  | _ => ""

def researchUnavailableFallback : String :=
  "Deep research data unavailable. Please use internal knowledge."

/-- The research context embedded in the generation prompt:
`deepResearchReport || "Deep research data unavailable. ..."`. -/
def researchContext (r : ResearchOutcome) : String :=
  jsOrElse (some (deepResearchReport r)) researchUnavailableFallback

/-- The tail of the generation try block plus its catch handler (shared
verbatim by both service variants): a thrown call, an `undefined` response, a
falsy `response.text` (`if (!text) throw`) and a `JSON.parse` throw all fall
back to `getMockProposal`; otherwise the parsed document is returned. -/
def parseReportText (parse : String → Option PresentationData) :
    Except GenError (Option GenResponse) → PresentationData
  | Except.error _ => getMockProposal
  | Except.ok none => getMockProposal
  | Except.ok (some r) =>
      match r.text with
      | none => getMockProposal
      | some t =>
          if t = "" then getMockProposal
          else (parse t).getD getMockProposal

/-- The Report Assembly Pipeline.  `gen ctx i` is the outcome of the `i`-th
report-generation attempt for a prompt embedding research context `ctx`;
`parse` models `JSON.parse` into `PresentationData` (`none` = throws). -/
def generateInvestmentProposal (research : ResearchOutcome)
    (gen : String → Nat → Except GenError GenResponse)
    (parse : String → Option PresentationData) : PresentationData :=
  parseReportText parse (generateWithRetry (gen (researchContext research)) 5)

/-- `getAssetRecommendations` of `geminiService.ts`: the whole call is wrapped
in try/catch whose handler returns the empty list
(`catch (e) \x7b return []; \x7d`). -/
def getAssetRecommendations (attempt : Nat → Except GenError GenResponse)
    (parseAssets : String → Option (List Asset)) : Except GenError (List Asset) :=
  match generateWithRetry attempt 5 with
  | Except.error _ => Except.ok []
  | Except.ok none => Except.ok []
  | Except.ok (some r) => Except.ok ((parseAssets (jsOrElse r.text "[]")).getD [])

/-- `aiTextEdit`: on failure, or an absent/empty response text, the original
text is returned unchanged. -/
def aiTextEdit (attempt : Nat → Except GenError GenResponse)
    (currentText : String) : String :=
  match generateWithRetry attempt 5 with
  | Except.error _ => currentText
  | Except.ok none => currentText
  | Except.ok (some r) => jsOrElse r.text currentText

end GeminiService

/-! ## `src/unnamed/part_001` (the sibling service variant) -/

namespace GeminiService2

/-- Identical fallback document in the variant file. -/
def getMockProposal : PresentationData := GeminiService.getMockProposal

def researchErrorPlaceholder : String :=
  "Deep research could not be completed due to network or API issues. Using internal knowledge base."

/-- `performDeepResearch`: a search-grounded call with 3 retries; any error is
caught and replaced by the explicit placeholder; on success the response text
(possibly empty) is joined with up to five truthy grounding URIs. -/
def performDeepResearch (attempt : Nat → Except GenError GenResponse) : String :=
  match generateWithRetry attempt 3 with
  | Except.error _ => researchErrorPlaceholder
  | Except.ok none => researchErrorPlaceholder
  | Except.ok (some r) =>
      let text := r.text.getD ""
      let urls := ((r.groundingUris.filterMap id).filter (fun u => u ≠ "")).take 5
      let sourceLinks :=
        if 0 < urls.length then "\n\nReferenced Sources:\n" ++ String.intercalate "\n" urls
        else ""
      text ++ sourceLinks

/-- The research context embedded in the generation prompt of the variant. -/
def researchContext (attempt : Nat → Except GenError GenResponse) : String :=
  jsOrElse (some (performDeepResearch attempt)) GeminiService.researchUnavailableFallback

/-- The variant Report Assembly Pipeline: research (never throws, its own
try/catch is therefore inert), then generation with 3 retries, the same
try-block tail and catch handler ending in the fallback document. -/
def generateInvestmentProposal (researchAttempt : Nat → Except GenError GenResponse)
    (gen : String → Nat → Except GenError GenResponse)
    (parse : String → Option PresentationData) : PresentationData :=
  GeminiService.parseReportText parse (generateWithRetry (gen (researchContext researchAttempt)) 3)

/-- `getAssetRecommendations` of the variant: the catch handler rethrows
(`throw e` — the source comments "Propagate error so UI can show retry
button").  A parse throw is also rethrown. -/
def getAssetRecommendations (attempt : Nat → Except GenError GenResponse)
    (parseAssets : String → Option (List Asset)) : Except GenError (List Asset) :=
  match generateWithRetry attempt 3 with
  | Except.error e => Except.error e
  | Except.ok none => Except.error GenError.other
  | Except.ok (some r) =>
      match parseAssets (jsOrElse r.text "[]") with
      | none => Except.error GenError.other
      | some l => Except.ok l

end GeminiService2

/-! ## `src/unnamed/part_000` (InputSection) -/

namespace InputSection

/-- The closed prefecture list of the source. -/
def PREFECTURES : List String :=
  ["北海道", "青森県", "岩手県", "宮城県", "秋田県", "山形県", "福島県",
   "茨城県", "栃木県", "群馬県", "埼玉県", "千葉県", "東京都", "神奈川県",
   "新潟県", "富山県", "石川県", "福井県", "山梨県", "長野県", "岐阜県",
   "静岡県", "愛知県", "三重県", "滋賀県", "京都府", "大阪府", "兵庫県",
   "奈良県", "和歌山県", "鳥取県", "島根県", "岡山県", "広島県", "山口県",
   "徳島県", "香川県", "愛媛県", "高知県", "福岡県", "佐賀県", "長崎県",
   "熊本県", "大分県", "宮崎県", "鹿児島県", "沖縄県"]

/-- The closed family-structure list of the source. -/
def FAMILY_OPTIONS : List String :=
  ["独身", "独身 (子供あり)", "既婚 (子供なし)", "既婚 (子供あり)",
   "既婚 (子供独立済)", "高齢夫婦のみ", "二世帯同居", "その他"]

/-- Totals, recomputed from the holdings on every render
(`reduce((sum, h) => sum + (h.amount || 0), 0)` and its profit/loss twin). -/
def totalAmount (hs : List Asset) : Rat :=
  hs.foldl (fun sum h => sum + h.amount.getD 0) 0

def totalProfitLoss (hs : List Asset) : Rat :=
  hs.foldl (fun sum h => sum + h.profitLoss.getD 0) 0

def totalInvested (hs : List Asset) : Rat := totalAmount hs - totalProfitLoss hs

def totalReturnPct (hs : List Asset) : Rat :=
  if 0 < totalInvested hs then totalProfitLoss hs / totalInvested hs * 100 else 0

/-- Normalization applied to a user-entered amount string: full-width digits
to half-width (`charCodeAt - 0xFEE0`), then every ascii comma removed. -/
def toHalfWidth (c : Char) : Char :=
  if '０' ≤ c ∧ c ≤ '９' then Char.ofNat (c.toNat - 0xFEE0) else c

def normalizeAmountInput (val : String) : String :=
  String.mk ((val.data.map toHalfWidth).filter fun c => c ≠ ',')

/-- `handleAmountChange`: the value handed to `updateFn`, or `none` when the
input is silently ignored (`isNaN` case). -/
def handleAmountChange (val : String) : Option Rat :=
  let normalized := normalizeAmountInput val
  if normalized = "" ∨ normalized = "-" then some 0
  else jsParseFloat normalized

/-- `addHolding` ported to the holdings list: a no-op on an empty name,
otherwise appends the draft with a clock-minted id and confidence 1.0. -/
def addHolding (now : String) (newHolding : Asset) (hs : List Asset) : List Asset :=
  if newHolding.name = "" then hs
  else hs ++ [{ newHolding with id := now, confidence := some 1 }]

/-- The single field-value assignments `updateHoldingRow` can perform on a
row (one per editable column of the holdings table). -/
inductive HoldingField where
  | name (v : String)
  | code (v : String)
  | type (v : String)
  | quantity (v : Option Rat)
  | amount (v : Option Rat)
  | profitLoss (v : Option Rat)
  deriving Repr, DecidableEq

def setField (h : Asset) : HoldingField → Asset
  | HoldingField.name v => { h with name := v }
  | HoldingField.code v => { h with code := some v }
  | HoldingField.type v => { h with type := v }
  | HoldingField.quantity v => { h with quantity := v }
  | HoldingField.amount v => { h with amount := v }
  | HoldingField.profitLoss v => { h with profitLoss := v }

/-- `updateHoldingRow`: map over the rows, rewriting the matching id. -/
def updateHoldingRow (hs : List Asset) (id : String) (f : HoldingField) : List Asset :=
  hs.map fun h => if h.id = id then setField h f else h

/-- One Holding Ledger operation of the source. -/
inductive LedgerOp where
  | add (now : String) (newHolding : Asset)
  | update (id : String) (f : HoldingField)
  | remove (id : String)
  deriving Repr

def applyOp (hs : List Asset) : LedgerOp → List Asset
  | LedgerOp.add now newHolding => addHolding now newHolding hs
  | LedgerOp.update id f => updateHoldingRow hs id f
  | LedgerOp.remove id => hs.filter fun x => x.id ≠ id

def applyOps (hs : List Asset) (ops : List LedgerOp) : List Asset :=
  ops.foldl applyOp hs

/-- `toggleProposalType`: flip the count between `0` and the default `1`,
touching nothing else. -/
def toggleProposalType (s : ProposalSettings) (type : String) : ProposalSettings :=
  let currentCount := (s.proposalCounts type).getD 0
  { s with proposalCounts :=
      fun k => if k = type then some (if 0 < currentCount then 0 else 1)
               else s.proposalCounts k }

/-- `toggleSubCategory`: toggle membership of one tag in the list of one type. -/
def toggleSubCategory (s : ProposalSettings) (type sub : String) : ProposalSettings :=
  let currentDetails := (s.proposalDetails type).getD []
  let newDetails :=
    if sub ∈ currentDetails then currentDetails.filter fun d => d ≠ sub
    else currentDetails ++ [sub]
  { s with proposalDetails :=
      fun k => if k = type then some newDetails else s.proposalDetails k }

/-- The profile-hint fields the document parser may return. -/
structure ExtractedProfile where
  age : Option Rat := none
  gender : Option String := none
  region : Option String := none
  riskTolerance : Option String := none
  goals : Option String := none
  familyStructure : Option String := none
  deriving Repr, DecidableEq

/-- The object `parsePortfolioDocument` resolves to.  The declared interface
names the hint field `extractedProfile`, while the JSON the parser is
prompted to produce (and which `processFile` actually reads two lines below
its guard) carries the hints under `profile`; both are therefore modelled. -/
structure ParseResultObj where
  assets : List Asset := []
  extractedProfile : Option ExtractedProfile := none
  profile : Option ExtractedProfile := none
  deriving Repr, DecidableEq

/-- Fresh ids and the audit note given to imported assets. -/
def newAssetsWithIds (now fileName : String) (extractedAssets : List Asset) : List Asset :=
  extractedAssets.enum.map fun p =>
    { p.2 with id := "imported-" ++ now ++ "-" ++ toString p.1,
               description := some ("Imported from " ++ fileName) }

/-- The region-hint resolution of `processFile`:
`PREFECTURES.find(pref => hint.includes(pref) || pref.includes(hint)) || hint`. -/
def resolveRegion (hint : String) : String :=
  (PREFECTURES.find? fun pref => jsIncludes hint pref || jsIncludes pref hint).getD hint

/-- The family-structure resolution: one-directional containment. -/
def resolveFamily (hint : String) : String :=
  (FAMILY_OPTIONS.find? fun f => jsIncludes hint f).getD hint

/-- The `setProfile` updater of `processFile` (lines 133–163): the hint merge
runs only when `parseResult.extractedProfile` is truthy, and then reads the
hints from `parseResult.profile`; extracted assets are appended. -/
def mergeParsedProfile (prev : ClientProfile) (parseResult : ParseResultObj)
    (assetsWithIds : List Asset) : ClientProfile :=
  let np := prev
  let np :=
    if parseResult.extractedProfile.isSome then
      match parseResult.profile with
      | none => np
      | some p =>
          let np := match p.age with
            | some a => if a ≠ 0 then { np with age := a } else np
            | none => np
          let np := match p.gender with
            | some g => if g ≠ "" then { np with gender := g } else np
            | none => np
          let np := match p.region with
            | some rg => if rg ≠ "" then { np with region := resolveRegion rg } else np
            | none => np
          let np := match p.familyStructure with
            | some fs => if fs ≠ "" then { np with familyStructure := resolveFamily fs } else np
            | none => np
          let np := match p.riskTolerance with
            | some rt => if rt ≠ "" then { np with riskTolerance := rt } else np
            | none => np
          let np := match p.goals with
            | some gl => if gl ≠ "" then { np with goals := gl } else np
            | none => np
          np
    else np
  { np with currentHoldings := prev.currentHoldings ++ assetsWithIds }

end InputSection

/-! ## `src/components/RebalanceSection.tsx` -/

namespace RebalanceSection

/-- One entry of the static search catalogue (`StockDefinition`). -/
structure StockDefinition where
  name : String
  code : String
  type : String
  currency : String
  deriving Repr, DecidableEq

/-- The component state the embedded handlers touch. -/
structure RebalanceState where
  recommendations : List Asset
  proposedAssets : List Asset
  error : Option String
  deriving Repr, DecidableEq

def recsFailureMessage : String :=
  "AI推奨の取得に失敗しました。しばらく待ってから再試行してください。"

/-- `fetchRecs`: clear the error, await the fetch; on success store the
candidates with per-element `rec-` random ids, on a throw store the failure
message.  The proposed-assets ledger is not an output of this handler. -/
def fetchRecs (result : Except GenError (List Asset)) (randoms : Nat → String)
    (s : RebalanceState) : RebalanceState :=
  let s0 := { s with error := none }
  match result with
  | Except.ok recs =>
      { s0 with recommendations :=
          recs.enum.map fun p => { p.2 with id := "rec-" ++ randoms p.1 } }
  | Except.error _ => { s0 with error := some recsFailureMessage }

/-- `addToProposal`: append the candidate with a random-minted `prop-` id and
the fixed default amount. -/
def addToProposal (rand : String) (asset : Asset) (proposedAssets : List Asset) :
    List Asset :=
  proposedAssets ++ [{ asset with id := "prop-" ++ rand, amount := some 1000000 }]

/-- `selectManualAsset`: append a new asset built from the catalogue entry
with a clock-minted `manual-` id, the fixed default amount and
confidence 1.0. -/
def selectManualAsset (now : String) (stock : StockDefinition)
    (proposedAssets : List Asset) : List Asset :=
  proposedAssets ++
    [{ id := "manual-" ++ now, name := stock.name, code := some stock.code,
       type := stock.type, currency := stock.currency, amount := some 1000000,
       confidence := some 1, description := some "手動追加" }]

/-- `updateProposedAmount`: numeric normalization as in `handleAmountChange`,
but only the literally empty raw input maps to zero; a `NaN` with non-empty
raw input is silently ignored. -/
def updateProposedAmount (id : String) (val : String) (assets : List Asset) :
    List Asset :=
  let normalized := InputSection.normalizeAmountInput val
  match jsParseFloat normalized with
  | some num => assets.map fun p => if p.id = id then { p with amount := some num } else p
  | none =>
      if val = "" then
        assets.map fun p => if p.id = id then { p with amount := some 0 } else p
      else assets

def removeProposed (id : String) (assets : List Asset) : List Asset :=
  assets.filter fun p => p.id ≠ id

end RebalanceSection

/-! ## `src/components/slides/SlideRenderer.tsx` (RebalanceProposal branch) -/

namespace SlideRenderer

/-- The sell-side filter:
`r.label.includes('売却') || (r.value1 && r.value1.startsWith('-'))`. -/
def sellRowPred (r : TableRow) : Bool :=
  jsIncludes r.label "売却" ||
    (match r.value1 with
     | none => false
     | some v => if v = "" then false else jsStartsWith v "-")

/-- The buy-side filter:
`r.label.includes('購入') || (r.value1 && !r.value1.startsWith('-'))`. -/
def buyRowPred (r : TableRow) : Bool :=
  jsIncludes r.label "購入" ||
    (match r.value1 with
     | none => false
     | some v => if v = "" then false else !jsStartsWith v "-")

/-- The emptiness test guarding the explicit "売却対象なし" state:
`!tableData?.some(r => r.label.includes('売却') || r.value1?.startsWith('-'))`. -/
def noSellPred (r : TableRow) : Bool :=
  jsIncludes r.label "売却" ||
    (match r.value1 with
     | none => false
     | some v => jsStartsWith v "-")

def sellRows (rows : List TableRow) : List TableRow := rows.filter sellRowPred

def buyRows (rows : List TableRow) : List TableRow := rows.filter buyRowPred

def noSellDisplayed (rows : List TableRow) : Bool := !(rows.any noSellPred)

end SlideRenderer

/-! ## `src/components/SlideEditor.tsx` -/

namespace SlideEditor

/-- `handleChatSubmit`: a no-op on empty chat input; otherwise replace the
selected slide by a copy whose `bodyText` is the `aiTextEdit` result over
`currentSlide.bodyText || ""`. -/
def handleChatSubmit (attempt : Nat → Except GenError GenResponse)
    (chatInput : String) (data : PresentationData) (currentSlideIndex : Nat) :
    PresentationData :=
  if chatInput = "" then data
  else
    match data.slides.get? currentSlideIndex with
    | none => data
    | some currentSlide =>
        let updatedText := GeminiService.aiTextEdit attempt (jsOrElse currentSlide.bodyText "")
        { data with slides :=
            data.slides.set currentSlideIndex { currentSlide with bodyText := some updatedText } }

end SlideEditor

/-! ## Claim theorems -/

/-- Helper: left-cancellation of string concatenation. -/
theorem stringAppend_left_cancel {s t u : String} (h : s ++ t = s ++ u) : t = u := by
  have hd := congrArg String.data h
  simp only [String.data_append] at hd
  exact String.ext (List.append_cancel_left hd)

/-- Claim C1: the Report Assembly Pipeline is a total function into
`PresentationData` (it cannot throw), and whenever the generation phase
yields no usable payload — every attempt throws, or a resolved response has
an absent, empty, or unparseable text — the returned document is the fixed
fallback, whose slide list is exactly one slide of type `Title`. -/
theorem reportPipeline_failure_yields_single_title_slide
    (research : GeminiService.ResearchOutcome)
    (gen : String → Nat → Except GenError GenResponse)
    (parse : String → Option PresentationData)
    (hfail : ∀ s i r t, gen s i = Except.ok r → r.text = some t → t ≠ "" → parse t = none) :
    (GeminiService.generateInvestmentProposal research gen parse).slides.map
        SlideContent.type = ["Title"] := by
  unfold GeminiService.generateInvestmentProposal
  have hkey := generateWithRetryAux_fail (gen (GeminiService.researchContext research))
    (fun t => parse t = none)
    (fun i r t hg ht hne => hfail (GeminiService.researchContext research) i r t hg ht hne) 0 5
  cases hg : generateWithRetry (gen (GeminiService.researchContext research)) 5 with
  | error e => rfl
  | ok o =>
      cases o with
      | none => rfl
      | some r =>
          cases ht : r.text with
          | none => simp [GeminiService.parseReportText, ht, GeminiService.getMockProposal]
          | some t =>
              by_cases hte : t = ""
              · simp [GeminiService.parseReportText, ht, hte, GeminiService.getMockProposal]
              · simp [GeminiService.parseReportText, ht, hte, hkey r t hg ht hte,
                  GeminiService.getMockProposal]

/-- Claim C1 witness: the pipeline with a generation call that throws on every
attempt returns the one-`Title`-slide fallback. -/
theorem reportPipeline_failure_yields_single_title_slide_witness :
    (GeminiService.generateInvestmentProposal GeminiService.ResearchOutcome.throws
        (fun _ _ => Except.error GenError.other) (fun _ => none)).slides.map
        SlideContent.type = ["Title"] :=
  reportPipeline_failure_yields_single_title_slide GeminiService.ResearchOutcome.throws
    (fun _ _ => Except.error GenError.other) (fun _ => none)
    (fun _ _ _ _ hg _ _ => Except.noConfusion hg)

/-- Helper: when every research attempt throws, `performDeepResearch` catches
the rethrown error and returns the explicit placeholder. -/
theorem performDeepResearch_all_throw (researchAttempt : Nat → Except GenError GenResponse)
    (hr : ∀ i, ∃ e, researchAttempt i = Except.error e) :
    GeminiService2.performDeepResearch researchAttempt = GeminiService2.researchErrorPlaceholder := by
  obtain ⟨e, he⟩ := generateWithRetryAux_error researchAttempt hr 3 0 (by norm_num)
  unfold GeminiService2.performDeepResearch
  rw [show generateWithRetry researchAttempt 3 = Except.error e from he]

/-- Claim C2: a research failure never cascades.  When every research attempt
throws, the research context embedded in the generation prompt is the
explicit "research unavailable" placeholder (a second conjunct covers a
research call that resolves with an empty payload, replaced by the prompt-level
fallback placeholder), the pipeline proceeds to the generation phase,
and when generation succeeds with a parseable payload its parsed result is
returned unmodified. -/
theorem researchFailure_never_cascades
    (researchAttempt : Nat → Except GenError GenResponse)
    (gen : String → Nat → Except GenError GenResponse)
    (parse : String → Option PresentationData)
    (hr : ∀ i, ∃ e, researchAttempt i = Except.error e)
    (r : GenResponse) (t : String) (d : PresentationData)
    (hg : gen GeminiService2.researchErrorPlaceholder 0 = Except.ok r)
    (ht : r.text = some t) (hne : t ≠ "") (hp : parse t = some d) :
    GeminiService2.researchContext researchAttempt = GeminiService2.researchErrorPlaceholder
    ∧ (∀ (emptyAttempt : Nat → Except GenError GenResponse) (r0 : GenResponse),
        emptyAttempt 0 = Except.ok r0 → r0.text = some "" → r0.groundingUris = [] →
        GeminiService2.researchContext emptyAttempt = GeminiService.researchUnavailableFallback)
    ∧ GeminiService2.generateInvestmentProposal researchAttempt gen parse = d := by
  have hctx : GeminiService2.researchContext researchAttempt =
      GeminiService2.researchErrorPlaceholder := by
    unfold GeminiService2.researchContext
    rw [performDeepResearch_all_throw researchAttempt hr]
    decide
  refine ⟨hctx, ?_, ?_⟩
  · intro emptyAttempt r0 h0 ht0 hu0
    have hres : GeminiService2.performDeepResearch emptyAttempt = "" := by
      unfold GeminiService2.performDeepResearch
      rw [show generateWithRetry emptyAttempt 3 = Except.ok (some r0) from
        generateWithRetryAux_succ_ok emptyAttempt 0 2 r0 h0]
      simp [ht0, hu0]
    unfold GeminiService2.researchContext
    rw [hres]
    decide
  · unfold GeminiService2.generateInvestmentProposal
    rw [hctx]
    rw [show generateWithRetry (gen GeminiService2.researchErrorPlaceholder) 3 =
        Except.ok (some r) from
      generateWithRetryAux_succ_ok (gen GeminiService2.researchErrorPlaceholder) 0 2 r hg]
    simp [GeminiService.parseReportText, ht, hne, hp]

/-- Claim C2 witness: concrete always-throwing research, concrete succeeding
generation; the pipeline returns the generation result unmodified. -/
theorem researchFailure_never_cascades_witness :
    GeminiService2.generateInvestmentProposal (fun _ => Except.error GenError.other)
        (fun _ _ => Except.ok { text := some "doc" })
        (fun s => if s = "doc" then
            some { title := "提案", clientName := "顧客", slides := [] } else none) =
      { title := "提案", clientName := "顧客", slides := [] } :=
  (researchFailure_never_cascades (fun _ => Except.error GenError.other)
      (fun _ _ => Except.ok { text := some "doc" })
      (fun s => if s = "doc" then
          some { title := "提案", clientName := "顧客", slides := [] } else none)
      (fun _ => ⟨GenError.other, rfl⟩)
      { text := some "doc" } "doc" { title := "提案", clientName := "顧客", slides := [] }
      rfl rfl (by decide) (by decide)).2.2

/-- Claim C3 (code bug): on a fetch that throws on every attempt, the wired service
(`geminiService.ts`) swallows the failure and resolves with the empty list,
while the variant service (`part_001`) propagates the error as its own
comment ("Propagate error so UI can show retry button") and as the retry
panel of the caller expects; in every case `fetchRecs` leaves the proposed-assets
ledger untouched. -/
theorem recommendationFetch_failure_divergence :
    GeminiService.getAssetRecommendations (fun _ => Except.error GenError.other)
        (fun _ => none) = Except.ok []
    ∧ GeminiService2.getAssetRecommendations (fun _ => Except.error GenError.other)
        (fun _ => none) = Except.error GenError.other
    ∧ ∀ (result : Except GenError (List Asset)) (randoms : Nat → String)
        (s : RebalanceSection.RebalanceState),
        (RebalanceSection.fetchRecs result randoms s).proposedAssets = s.proposedAssets := by
  refine ⟨rfl, rfl, ?_⟩
  intro result randoms s
  cases result <;> rfl

/-- Claim C4 (code bug): the numeric normalization converts full-width digits and
strips ascii commas, but not the full-width comma (U+FF0C) of the claimed
example input, so `"１，２３４"` is applied as the number 1 (the longest
`parseFloat` front segment of `"1，234"`), not 1234; full-width digits alone
do normalize, `handleAmountChange` maps `""` and `"-"` to 0 while
`updateProposedAmount` silently ignores a bare `"-"`, and non-numeric input
is ignored. -/
theorem amountNormalization_divergence :
    InputSection.handleAmountChange "１，２３４" = some 1
    ∧ InputSection.handleAmountChange "１２３４" = some 1234
    ∧ InputSection.handleAmountChange "1,234" = some 1234
    ∧ InputSection.handleAmountChange "" = some 0
    ∧ InputSection.handleAmountChange "-" = some 0
    ∧ InputSection.handleAmountChange "abc" = none
    ∧ RebalanceSection.updateProposedAmount "p1" "-"
        [{ id := "p1", name := "X", type := "Stock", currency := "JPY",
           amount := some 5 }] =
        [{ id := "p1", name := "X", type := "Stock", currency := "JPY",
           amount := some 5 }]
    ∧ RebalanceSection.updateProposedAmount "p1" ""
        [{ id := "p1", name := "X", type := "Stock", currency := "JPY",
           amount := some 5 }] =
        [{ id := "p1", name := "X", type := "Stock", currency := "JPY",
           amount := some 0 }] := by
  refine ⟨by decide, by decide, by decide, by decide, by decide, by decide, by decide, by decide⟩

/-- Helper: a left fold of additions equals the sum of the mapped list. -/
theorem foldl_add_getD_eq_sum (f : Asset → Option Rat) (hs : List Asset) :
    ∀ a : Rat, hs.foldl (fun sum h => sum + (f h).getD 0) a =
      a + (hs.map fun h => (f h).getD 0).sum := by
  induction hs with
  | nil => intro a; simp
  | cons h tl ih => intro a; simp [ih, add_assoc]

/-- Claim C5: after any sequence of add/update/remove operations on the Holding
Ledger, the derived totals are recomputed from the current entries: the
total amount is the arithmetic sum of the entry amounts, the invested
base is sum(amount) − sum(profitLoss), and the return percentage is
profitLoss/investedBase·100 when the invested base is positive and exactly 0
otherwise. -/
theorem holdingLedger_totals_invariant (init : List Asset)
    (ops : List InputSection.LedgerOp) :
    InputSection.totalAmount (InputSection.applyOps init ops) =
        ((InputSection.applyOps init ops).map fun h => h.amount.getD 0).sum
    ∧ InputSection.totalProfitLoss (InputSection.applyOps init ops) =
        ((InputSection.applyOps init ops).map fun h => h.profitLoss.getD 0).sum
    ∧ InputSection.totalInvested (InputSection.applyOps init ops) =
        InputSection.totalAmount (InputSection.applyOps init ops) -
          InputSection.totalProfitLoss (InputSection.applyOps init ops)
    ∧ (0 < InputSection.totalInvested (InputSection.applyOps init ops) →
        InputSection.totalReturnPct (InputSection.applyOps init ops) =
          InputSection.totalProfitLoss (InputSection.applyOps init ops) /
            InputSection.totalInvested (InputSection.applyOps init ops) * 100)
    ∧ (InputSection.totalInvested (InputSection.applyOps init ops) ≤ 0 →
        InputSection.totalReturnPct (InputSection.applyOps init ops) = 0) := by
  refine ⟨?_, ?_, rfl, ?_, ?_⟩
  · have := foldl_add_getD_eq_sum (fun h => h.amount) (InputSection.applyOps init ops) 0
    simpa [InputSection.totalAmount] using this
  · have := foldl_add_getD_eq_sum (fun h => h.profitLoss) (InputSection.applyOps init ops) 0
    simpa [InputSection.totalProfitLoss] using this
  · intro hpos
    unfold InputSection.totalReturnPct
    rw [if_pos hpos]
  · intro hle
    unfold InputSection.totalReturnPct
    rw [if_neg (not_lt.mpr hle)]

/-- Claim C5 witness: a concrete add/update/remove run; the positive-base formula
holds on the resulting ledger and the empty ledger yields return 0. -/
theorem holdingLedger_totals_invariant_witness :
    (InputSection.totalReturnPct (InputSection.applyOps []
        [InputSection.LedgerOp.add "101"
           { id := "", name := "トヨタ", type := "Stock", currency := "JPY",
             amount := some 150, profitLoss := some 50 },
         InputSection.LedgerOp.add "102"
           { id := "", name := "NTT", type := "Stock", currency := "JPY",
             amount := some 60, profitLoss := some 10 },
         InputSection.LedgerOp.remove "102"]) =
      InputSection.totalProfitLoss (InputSection.applyOps []
        [InputSection.LedgerOp.add "101"
           { id := "", name := "トヨタ", type := "Stock", currency := "JPY",
             amount := some 150, profitLoss := some 50 },
         InputSection.LedgerOp.add "102"
           { id := "", name := "NTT", type := "Stock", currency := "JPY",
             amount := some 60, profitLoss := some 10 },
         InputSection.LedgerOp.remove "102"]) /
        InputSection.totalInvested (InputSection.applyOps []
        [InputSection.LedgerOp.add "101"
           { id := "", name := "トヨタ", type := "Stock", currency := "JPY",
             amount := some 150, profitLoss := some 50 },
         InputSection.LedgerOp.add "102"
           { id := "", name := "NTT", type := "Stock", currency := "JPY",
             amount := some 60, profitLoss := some 10 },
         InputSection.LedgerOp.remove "102"]) * 100)
    ∧ InputSection.totalReturnPct (InputSection.applyOps [] []) = 0 :=
  ⟨(holdingLedger_totals_invariant []
      [InputSection.LedgerOp.add "101"
         { id := "", name := "トヨタ", type := "Stock", currency := "JPY",
           amount := some 150, profitLoss := some 50 },
       InputSection.LedgerOp.add "102"
         { id := "", name := "NTT", type := "Stock", currency := "JPY",
           amount := some 60, profitLoss := some 10 },
       InputSection.LedgerOp.remove "102"]).2.2.2.1
      (by norm_num [InputSection.applyOps, InputSection.applyOp, InputSection.addHolding,
        InputSection.totalInvested, InputSection.totalAmount, InputSection.totalProfitLoss,
        List.foldl, List.filter]),
   (holdingLedger_totals_invariant [] []).2.2.2.2 (by norm_num [InputSection.applyOps,
      InputSection.totalInvested, InputSection.totalAmount, InputSection.totalProfitLoss,
      List.foldl])⟩

/-- Claim C6 counterexample: (a) an AI-recommended candidate carrying no confidence
is added to the proposal ledger with its confidence still absent — it is not
defaulted to 1.0; (b) two consecutive manual adds performed within the same
clock millisecond mint the identical identifier `manual-1700000000000`, so
the freshly minted id is not disjoint from the ledger.  Both refute the
claim as stated at explicit concrete inputs. -/
theorem recommendationReconciler_claim_cex :
    ((RebalanceSection.addToProposal "0.123"
        { id := "rec-0.9", name := "ソニーグループ", type := "Stock", currency := "JPY" }
        []).map Asset.confidence = [none])
    ∧ ((RebalanceSection.selectManualAsset "1700000000000"
          { name := "ソニーグループ", code := "6758", type := "Stock", currency := "JPY" }
          (RebalanceSection.selectManualAsset "1700000000000"
            { name := "ソニーグループ", code := "6758", type := "Stock", currency := "JPY" }
            [])).map Asset.id =
        ["manual-1700000000000", "manual-1700000000000"]) := by
  refine ⟨rfl, rfl⟩

/-- Claim C6 amended: each add appends one entry with amount defaulted to
1,000,000; the AI-recommendation path keeps the candidate confidence
unchanged while the manual path sets confidence 1.0; ids are minted as
`prop-`/`manual-` plus the current random draw or clock reading, so two
consecutive adds yield distinct identifiers — even for identical display
names — exactly when those draws differ. -/
theorem recommendationReconciler_add_contract
    (r1 r2 now : String) (a1 a2 : Asset)
    (stock : RebalanceSection.StockDefinition) (l : List Asset)
    (hne : r1 ≠ r2) :
    ((RebalanceSection.addToProposal r2 a2
        (RebalanceSection.addToProposal r1 a1 l)).map Asset.id =
          l.map Asset.id ++ ["prop-" ++ r1, "prop-" ++ r2])
    ∧ ("prop-" ++ r1 : String) ≠ "prop-" ++ r2
    ∧ (∀ a ∈ RebalanceSection.addToProposal r1 a1 l, a ∈ l ∨
         (a.id = "prop-" ++ r1 ∧ a.amount = some 1000000 ∧
          a.confidence = a1.confidence ∧ a.name = a1.name))
    ∧ (∀ a ∈ RebalanceSection.selectManualAsset now stock l, a ∈ l ∨
         (a.id = "manual-" ++ now ∧ a.amount = some 1000000 ∧
          a.confidence = some 1 ∧ a.name = stock.name)) := by
  refine ⟨?_, ?_, ?_, ?_⟩
  · simp [RebalanceSection.addToProposal]
  · intro h
    exact hne (stringAppend_left_cancel h)
  · intro a ha
    rcases List.mem_append.mp ha with h | h
    · exact Or.inl h
    · right
      rcases List.mem_singleton.mp h with rfl
      exact ⟨rfl, rfl, rfl, rfl⟩
  · intro a ha
    rcases List.mem_append.mp ha with h | h
    · exact Or.inl h
    · right
      rcases List.mem_singleton.mp h with rfl
      exact ⟨rfl, rfl, rfl, rfl⟩

/-- Claim C6 witness: two consecutive candidate adds with distinct random draws
produce the two distinct ids `prop-0.1` and `prop-0.2` for candidates with
the identical display name. -/
theorem recommendationReconciler_add_contract_witness :
    ((RebalanceSection.addToProposal "0.2"
        { id := "rec-b", name := "ソニーグループ", type := "Stock", currency := "JPY" }
        (RebalanceSection.addToProposal "0.1"
          { id := "rec-a", name := "ソニーグループ", type := "Stock", currency := "JPY" }
          [])).map Asset.id = ["prop-0.1", "prop-0.2"])
    ∧ ("prop-0.1" : String) ≠ "prop-0.2" :=
  ⟨(recommendationReconciler_add_contract "0.1" "0.2" "t"
      { id := "rec-a", name := "ソニーグループ", type := "Stock", currency := "JPY" }
      { id := "rec-b", name := "ソニーグループ", type := "Stock", currency := "JPY" }
      { name := "ソニーグループ", code := "6758", type := "Stock", currency := "JPY" }
      [] (by decide)).1,
   (recommendationReconciler_add_contract "0.1" "0.2" "t"
      { id := "rec-a", name := "ソニーグループ", type := "Stock", currency := "JPY" }
      { id := "rec-b", name := "ソニーグループ", type := "Stock", currency := "JPY" }
      { name := "ソニーグループ", code := "6758", type := "Stock", currency := "JPY" }
      [] (by decide)).2.1⟩

/-- Claim C7 counterexample: a `RebalanceProposal` row with a neutral label and no
`value1` satisfies neither the sell filter nor the buy filter, so the buy
group is not "exactly all remaining rows": with this single row the sell
partition is empty yet the buy partition is empty too. -/
theorem rebalancePartition_claim_cex :
    SlideRenderer.sellRowPred { label := "現金調整" } = false
    ∧ SlideRenderer.buyRowPred { label := "現金調整" } = false
    ∧ SlideRenderer.sellRows [{ label := "現金調整" }] = []
    ∧ SlideRenderer.buyRows [{ label := "現金調整" }] = [] := by
  refine ⟨rfl, rfl, rfl, rfl⟩

/-- The some-guard of the "nothing to sell" state tests the same condition
as the sell filter. -/
theorem noSellPred_eq_sellRowPred (r : TableRow) :
    SlideRenderer.noSellPred r = SlideRenderer.sellRowPred r := by
  unfold SlideRenderer.noSellPred SlideRenderer.sellRowPred
  cases hv : r.value1 with
  | none => rfl
  | some v =>
      by_cases hve : v = ""
      · subst hve
        have h0 : jsStartsWith "" "-" = false := by decide
        simp [h0]
      · simp [hve]

/-- Claim C7 amended: the sell group is the rows whose label contains the sell
marker or whose present value starts with a minus; the buy group is the rows
whose label contains the buy marker or whose present non-empty value does
not start with a minus.  For rows carrying a present non-empty `value1` and
no marker word in the label, the two groups partition the rows (each row in
exactly one); the explicit "nothing to sell" state is rendered exactly when
the sell partition is empty. -/
theorem rebalancePartition_amended (rows : List TableRow)
    (h : ∀ r ∈ rows, jsIncludes r.label "売却" = false ∧ jsIncludes r.label "購入" = false ∧
        ∃ v, r.value1 = some v ∧ v ≠ "") :
    (∀ r ∈ rows,
        (SlideRenderer.sellRowPred r = true ∧ SlideRenderer.buyRowPred r = false) ∨
        (SlideRenderer.sellRowPred r = false ∧ SlideRenderer.buyRowPred r = true))
    ∧ (SlideRenderer.noSellDisplayed rows = true ↔ SlideRenderer.sellRows rows = []) := by
  constructor
  · intro r hr
    obtain ⟨hs, hb, v, hv, hve⟩ := h r hr
    unfold SlideRenderer.sellRowPred SlideRenderer.buyRowPred
    rw [hs, hb, hv]
    cases hsw : jsStartsWith v "-" <;> simp [hve, hsw]
  · unfold SlideRenderer.noSellDisplayed SlideRenderer.sellRows
    simp [noSellPred_eq_sellRowPred, List.filter_eq_nil_iff]

/-- Claim C7 witness: the property-kind instance of the spec — all rows with
non-negative primary value and no sell marker — yields an empty sell
partition, a buy partition holding every row, and the "nothing to sell"
state. -/
theorem rebalancePartition_amended_witness :
    ((SlideRenderer.sellRowPred { label := "NVIDIA", value1 := some "3000000" } = true ∧
      SlideRenderer.buyRowPred { label := "NVIDIA", value1 := some "3000000" } = false) ∨
     (SlideRenderer.sellRowPred { label := "NVIDIA", value1 := some "3000000" } = false ∧
      SlideRenderer.buyRowPred { label := "NVIDIA", value1 := some "3000000" } = true))
    ∧ (SlideRenderer.noSellDisplayed
        [{ label := "NVIDIA", value1 := some "3000000" },
         { label := "アドバンテスト", value1 := some "2000000" }] = true ↔
       SlideRenderer.sellRows
        [{ label := "NVIDIA", value1 := some "3000000" },
         { label := "アドバンテスト", value1 := some "2000000" }] = []) :=
  ⟨(rebalancePartition_amended
      [{ label := "NVIDIA", value1 := some "3000000" },
       { label := "アドバンテスト", value1 := some "2000000" }]
      (by decide)).1 { label := "NVIDIA", value1 := some "3000000" } (by decide),
   (rebalancePartition_amended
      [{ label := "NVIDIA", value1 := some "3000000" },
       { label := "アドバンテスト", value1 := some "2000000" }]
      (by decide)).2⟩

/-- Claim C8: toggling a proposal type off zeroes its requested count while leaving
the sub-category selections of every type untouched; toggling it off and
back on (which restores the default count 1) therefore yields exactly the
sub-categories that were selected before the toggle. -/
theorem toggleProposalType_preserves_subcategories (s : ProposalSettings) (type : String) :
    (0 < (s.proposalCounts type).getD 0 →
        (InputSection.toggleProposalType s type).proposalCounts type = some 0)
    ∧ (0 < (s.proposalCounts type).getD 0 →
        (InputSection.toggleProposalType
            (InputSection.toggleProposalType s type) type).proposalCounts type = some 1)
    ∧ (∀ u, (InputSection.toggleProposalType s type).proposalDetails u = s.proposalDetails u)
    ∧ (∀ u, (InputSection.toggleProposalType
        (InputSection.toggleProposalType s type) type).proposalDetails u =
          s.proposalDetails u) := by
  refine ⟨?_, ?_, fun u => rfl, fun u => rfl⟩
  · intro hpos
    simp [InputSection.toggleProposalType, hpos]
  · intro hpos
    simp [InputSection.toggleProposalType, hpos]

/-- Claim C8 witness: a concrete settings record with Stock count 3 and the
selections `テクノロジー`, `半導体`: toggling Stock off zeroes the count and an
off/on round trip leaves the Stock selections as they were. -/
theorem toggleProposalType_preserves_subcategories_witness :
    ((InputSection.toggleProposalType
        { proposalCounts := fun k => if k = "Stock" then some 3 else some 0,
          proposalDetails := fun k =>
            if k = "Stock" then some ["テクノロジー", "半導体"] else some [] }
        "Stock").proposalCounts "Stock" = some 0)
    ∧ ((InputSection.toggleProposalType (InputSection.toggleProposalType
        { proposalCounts := fun k => if k = "Stock" then some 3 else some 0,
          proposalDetails := fun k =>
            if k = "Stock" then some ["テクノロジー", "半導体"] else some [] }
        "Stock") "Stock").proposalDetails "Stock" =
      ({ proposalCounts := fun k => if k = "Stock" then some 3 else some 0,
         proposalDetails := fun k =>
           if k = "Stock" then some ["テクノロジー", "半導体"] else some [] } :
         ProposalSettings).proposalDetails "Stock") :=
  ⟨(toggleProposalType_preserves_subcategories
      { proposalCounts := fun k => if k = "Stock" then some 3 else some 0,
        proposalDetails := fun k =>
          if k = "Stock" then some ["テクノロジー", "半導体"] else some [] }
      "Stock").1 (by decide),
   (toggleProposalType_preserves_subcategories
      { proposalCounts := fun k => if k = "Stock" then some 3 else some 0,
        proposalDetails := fun k =>
          if k = "Stock" then some ["テクノロジー", "半導体"] else some [] }
      "Stock").2.2.2 "Stock"⟩

/-- Claim C9 (code bug): the region-hint resolution itself follows bidirectional
containment with a keep-verbatim fallback (`"東京"` resolves to `"東京都"`,
`"Mars"` stays `"Mars"`), but the merge in `processFile` is guarded by
`parseResult.extractedProfile` while the parser returns the hints under
`profile` (as its own prompt and the read two lines below the guard show):
on a conforming parse result the merge is skipped and the hint discarded,
the previous region surviving unchanged.  The last conjunct shows the merge
resolving the hint once both fields are set. -/
theorem importRegion_resolution_and_dead_guard :
    InputSection.resolveRegion "東京" = "東京都"
    ∧ InputSection.resolveRegion "Mars" = "Mars"
    ∧ (InputSection.mergeParsedProfile
        { age := 50, gender := "男性", region := "東京都",
          riskTolerance := "中 (バランス)", investmentHorizon := "中期 (3-10年)",
          goals := "資産保全", familyStructure := "既婚 (子供あり)", currentHoldings := [] }
        { assets := [], profile := some { region := some "Mars" } } []).region = "東京都"
    ∧ (InputSection.mergeParsedProfile
        { age := 50, gender := "男性", region := "北海道",
          riskTolerance := "中 (バランス)", investmentHorizon := "中期 (3-10年)",
          goals := "資産保全", familyStructure := "既婚 (子供あり)", currentHoldings := [] }
        { assets := [], extractedProfile := some { region := some "東京" },
          profile := some { region := some "東京" } } []).region = "東京都" := by
  refine ⟨by decide, by decide, by decide, by decide⟩

/-- Helper: when every rewrite attempt throws, `aiTextEdit` returns its input
text unchanged. -/
theorem aiTextEdit_all_throw (attempt : Nat → Except GenError GenResponse)
    (h : ∀ k, ∃ e, attempt k = Except.error e) (txt : String) :
    GeminiService.aiTextEdit attempt txt = txt := by
  obtain ⟨e, he⟩ := generateWithRetryAux_error attempt h 5 0 (by norm_num)
  unfold GeminiService.aiTextEdit
  rw [show generateWithRetry attempt 5 = Except.error e from he]

/-- Claim C10 counterexample: on a slide whose `bodyText` is absent, a chat edit
whose rewrite call throws still rewrites the field — the `bodyText` of the slide
goes from absent to the present empty string (`bodyText || ""` coerces before
the fallback), refuting the claimed bodyText-unchanged clause at
an explicit concrete input. -/
theorem slideEditor_chat_claim_cex :
    ({ title := "提案書", clientName := "お客様",
       slides := [{ id := "s1", type := "Disclaimer", title := "免責事項" }] } :
        PresentationData).slides.map SlideContent.bodyText = [none]
    ∧ (SlideEditor.handleChatSubmit (fun _ => Except.error GenError.other) "もっと簡潔に"
        { title := "提案書", clientName := "お客様",
          slides := [{ id := "s1", type := "Disclaimer", title := "免責事項" }] }
        0).slides.map SlideContent.bodyText = [some ""] := by
  refine ⟨rfl, by decide⟩

/-- Claim C10 amended: a chat edit changes at most the `bodyText` of the selected
slide — the document title, client name, slide count and every other slide
are untouched, and the selected slide is replaced by a copy differing only in
`bodyText`; when the rewrite call throws on every attempt the new `bodyText`
is the old body text coerced to a string (unchanged when present, the empty
string when absent). -/
theorem slideEditor_chat_frame
    (attempt : Nat → Except GenError GenResponse) (chatInput : String)
    (data : PresentationData) (i : Nat) (cur : SlideContent)
    (hcur : data.slides.get? i = some cur) (hin : chatInput ≠ "") :
    (SlideEditor.handleChatSubmit attempt chatInput data i).title = data.title
    ∧ (SlideEditor.handleChatSubmit attempt chatInput data i).clientName = data.clientName
    ∧ (SlideEditor.handleChatSubmit attempt chatInput data i).slides.length =
        data.slides.length
    ∧ (∀ j, j ≠ i → (SlideEditor.handleChatSubmit attempt chatInput data i).slides.get? j =
        data.slides.get? j)
    ∧ (SlideEditor.handleChatSubmit attempt chatInput data i).slides.get? i =
        some { cur with bodyText := some (GeminiService.aiTextEdit attempt (jsOrElse cur.bodyText "")) }
    ∧ ((∀ k, ∃ e, attempt k = Except.error e) →
        (SlideEditor.handleChatSubmit attempt chatInput data i).slides.get? i =
          some { cur with bodyText := some (jsOrElse cur.bodyText "") }) := by
  obtain ⟨hlen, -⟩ := List.get?_eq_some.mp hcur
  unfold SlideEditor.handleChatSubmit
  rw [if_neg hin, hcur]
  refine ⟨rfl, rfl, by simp, ?_, ?_, ?_⟩
  · intro j hj
    simp [List.getElem?_set_ne (Ne.symm hj)]
  · simp [List.getElem?_set_eq_of_lt _ hlen]
  · intro hthrow
    simp [List.getElem?_set_eq_of_lt _ hlen, aiTextEdit_all_throw attempt hthrow]

/-- Claim C10 witness: a two-slide document, editing slide 0 whose body text is
present, with an always-throwing rewrite: the other slide is untouched and
slide 0 keeps its body text. -/
theorem slideEditor_chat_frame_witness :
    ((SlideEditor.handleChatSubmit (fun _ => Except.error GenError.other) "短くして"
        { title := "T", clientName := "C",
          slides := [{ id := "s1", type := "ExecutiveSummary", title := "要約",
                       bodyText := some "旧本文" },
                     { id := "s2", type := "Disclaimer", title := "免責事項" }] }
        0).slides.get? 1 =
      ({ title := "T", clientName := "C",
         slides := [{ id := "s1", type := "ExecutiveSummary", title := "要約",
                      bodyText := some "旧本文" },
                    { id := "s2", type := "Disclaimer", title := "免責事項" }] } :
          PresentationData).slides.get? 1)
    ∧ ((SlideEditor.handleChatSubmit (fun _ => Except.error GenError.other) "短くして"
        { title := "T", clientName := "C",
          slides := [{ id := "s1", type := "ExecutiveSummary", title := "要約",
                       bodyText := some "旧本文" },
                     { id := "s2", type := "Disclaimer", title := "免責事項" }] }
        0).slides.get? 0 =
      some { id := "s1", type := "ExecutiveSummary", title := "要約",
             bodyText := some (jsOrElse (some "旧本文") "") }) :=
  ⟨(slideEditor_chat_frame (fun _ => Except.error GenError.other) "短くして"
      { title := "T", clientName := "C",
        slides := [{ id := "s1", type := "ExecutiveSummary", title := "要約",
                     bodyText := some "旧本文" },
                   { id := "s2", type := "Disclaimer", title := "免責事項" }] }
      0 { id := "s1", type := "ExecutiveSummary", title := "要約",
          bodyText := some "旧本文" } rfl (by decide)).2.2.2.1 1 (by decide),
   (slideEditor_chat_frame (fun _ => Except.error GenError.other) "短くして"
      { title := "T", clientName := "C",
        slides := [{ id := "s1", type := "ExecutiveSummary", title := "要約",
                     bodyText := some "旧本文" },
                   { id := "s2", type := "Disclaimer", title := "免責事項" }] }
      0 { id := "s1", type := "ExecutiveSummary", title := "要約",
          bodyText := some "旧本文" } rfl (by decide)).2.2.2.2.2
      (fun _ => ⟨GenError.other, rfl⟩)⟩
